import Mathlib

/-!
Shallow embedding of the data-exploration core of `src/app.py`
(country-profile IP dashboard): the filter engine (`apply_filters`),
the aggregators (`sum_apps`, `yoy_change`, the top-filers ranking, the
gender ratio `female_share`) and the Sankey graph construction.  Pandas
data frames are modelled as lists of rows; numeric results produced with
Python float division are modelled in ℚ.
-/

/-- A cell value of a generic table: pandas columns here hold either
integers (years, counts) or strings (country names, IP types). -/
inductive Value where
  | i : Int → Value
  | s : String → Value
deriving DecidableEq, Repr

/-- A row of a generic table: an association list from column name to value
(pandas guarantees every row has every column of the frame). -/
abbrev Row := List (String × Value)

/-- A generic table: the frame's column names plus its rows, mirroring a
pandas DataFrame as far as the filter engine observes it. -/
structure DataFrame where
  cols : List String
  rows : List Row
deriving DecidableEq, Repr

/-- Look up column `c` in row `r` (`row[c]`). -/
def cellOf (r : Row) (c : String) : Option Value :=
  (r.find? (fun p => p.1 == c)).map (fun p => p.2)

/-- Embedding of the mask `(out["year"] >= year_min) & (out["year"] <= year_max)`
evaluated at one row.  The source only applies it when the frame has a
`year` column; a non-integer cell would raise in pandas and is mapped to
`false` here. -/
def yearOk (ymin ymax : Int) (r : Row) : Bool :=
  match cellOf r "year" with
  | some (Value.i y) => decide (ymin ≤ y) && decide (y ≤ ymax)
  | _ => false

/-- Embedding of the mask `out["ip_type"].isin(ip_types)` evaluated at one
row: the cell is a member of the list of selected IP-type strings. -/
def ipOk (ips : List String) (r : Row) : Bool :=
  match cellOf r "ip_type" with
  | some (Value.s t) => ips.contains t
  | _ => false

/-- First masking statement of `apply_filters` (src/app.py lines 108-116):
`if "year" in out.columns and year_min is not None and year_max is not None:`
keep rows with `year_min <= year <= year_max`.  `df.copy()` and boolean
masking never change the column set. -/
def yearStage (df : DataFrame) (year_min year_max : Option Int) : DataFrame :=
  match year_min, year_max with
  | some a, some b =>
      if "year" ∈ df.cols then
        { df with rows := df.rows.filter (yearOk a b) }
      else df
  | _, _ => df

/-- Second masking statement of `apply_filters`:
`if ip_types and "ip_type" in out.columns: out = out[out["ip_type"].isin(ip_types)]`.
The Python truthiness test `if ip_types` is `False` both for `None` and for
an empty list, so an empty selection skips this stage. -/
def ipStage (df : DataFrame) (ip_types : Option (List String)) : DataFrame :=
  match ip_types with
  | some ips =>
      if ips ≠ [] ∧ "ip_type" ∈ df.cols then
        { df with rows := df.rows.filter (ipOk ips) }
      else df
  | none => df

/-- Embedding of `apply_filters(df, ip_types, year_min, year_max)`:
`if df is None or df.empty: return df`, then the year mask, then the
IP-type mask. -/
def apply_filters (df : DataFrame) (ip_types : Option (List String))
    (year_min year_max : Option Int) : DataFrame :=
  if df.rows.isEmpty then df
  else ipStage (yearStage df year_min year_max) ip_types

/-- A row of the flows table: columns
`year, origin_country, dest_country, ip_type, applications`
(applications is a non-negative integer). -/
structure FlowRow where
  year : Int
  origin_country : String
  dest_country : String
  ip_type : String
  applications : Nat
deriving DecidableEq, Repr

/-- Rows of `df` whose `origin_country` is `o` and `dest_country` is `d`:
the mask `(df["origin_country"]==o) & (df["dest_country"]==d)`. -/
def matchRows (df : List FlowRow) (o d : String) : List FlowRow :=
  df.filter (fun r => r.origin_country == o && r.dest_country == d)

/-- Embedding of `sum_apps(df, o, d)` (src/app.py lines 143-146):
0 on an empty frame, otherwise the sum of `applications` over the rows
matching the origin/destination pair. -/
def sum_apps (df : List FlowRow) (o d : String) : Nat :=
  if df.isEmpty then 0
  else ((matchRows df o d).map (fun r => r.applications)).sum

/-- Per-year grouped sum
`df2 = sub.groupby("year")["applications"].sum()` evaluated at year `y`. -/
def yearSum (sub : List FlowRow) (y : Int) : Nat :=
  ((sub.filter (fun r => r.year == y)).map (fun r => r.applications)).sum

/-- Embedding of `yoy_change(df, o, d, end_year)` (src/app.py lines 151-157):
`None` on an empty frame; group the rows matching the pair by year and sum
applications; `None` when `end_year` or `end_year - 1` is absent from the
grouped index or the prior-year sum is zero; otherwise
`100 * (curr - prev) / prev` (Python float division, modelled in ℚ).
A year is in the groupby index exactly when some matching row has it. -/
def yoy_change (df : List FlowRow) (o d : String) (end_year : Int) : Option ℚ :=
  if df.isEmpty then none
  else
    let sub := matchRows df o d
    if !(sub.any (fun r => r.year == end_year)) ||
       !(sub.any (fun r => r.year == end_year - 1)) then none
    else
      let prev := yearSum sub (end_year - 1)
      if prev = 0 then none
      else some (100 * ((yearSum sub end_year : ℚ) - (prev : ℚ)) / (prev : ℚ))

/-- Embedding of the per-row gender-share computation (src/app.py
lines 251-253): `total = female + male`;
`female_share = (female/total).replace([inf, -inf], 0).fillna(0)`.
With non-negative integer inputs, a zero total makes the pandas quotient
`NaN` (0/0), replaced by 0 by `fillna`; the `inf` replacement can only
fire for a zero total as well.  So the value is 0 when `total = 0` and
the exact quotient otherwise. -/
def female_share (female male : Nat) : ℚ :=
  if female + male = 0 then 0
  else (female : ℚ) / ((female : ℚ) + (male : ℚ))

/-- A row of the top-filers table: columns
`filer, origin_country, dest_country, ip_type, filings`. -/
structure TopFilerRow where
  filer : String
  origin_country : String
  dest_country : String
  ip_type : String
  filings : Nat
deriving DecidableEq, Repr

/-- Descending comparison on `filings`: `a` may come before `b` when
`a.filings ≥ b.filings`.  This is the key order of
`sort_values("filings", ascending=False)`. -/
def filingsGe (a b : TopFilerRow) : Prop :=
  b.filings ≤ a.filings

instance : DecidableRel filingsGe :=
  fun a b => inferInstanceAs (Decidable (b.filings ≤ a.filings))

/-- Rows of the top-filers frame matching the selected pair:
`df_top = topfilers_f[(origin_country==c1) & (dest_country==c2)]`
(src/app.py line 235). -/
def df_top (df : List TopFilerRow) (o d : String) : List TopFilerRow :=
  df.filter (fun r => r.origin_country == o && r.dest_country == d)

/-- Contract of `df_top.sort_values("filings", ascending=False)` as
called at src/app.py line 240: pandas promises that the output frame is a
permutation of the input rows ordered by descending `filings`, and with
the default `kind='quicksort'` — an unstable algorithm — it promises
nothing more; in particular the relative order of rows whose `filings`
tie is unspecified.  `sortValuesDescRun l out` says `out` is a possible
sorted frame for input `l`; `head(topn)` then takes the first `topn`
rows of such a run. -/
def sortValuesDescRun (l out : List TopFilerRow) : Prop :=
  out.Perm l ∧ out.Pairwise filingsGe

/-- One of two distinct rows with equal `filings` (the failing input for
the stability clause of the top-N ranking). -/
def tiedRowX : TopFilerRow :=
  ⟨"X", "Canada", "Japan", "Patent", 20⟩

/-- The other tied row: same `filings`, different filer. -/
def tiedRowY : TopFilerRow :=
  ⟨"Y", "Canada", "Japan", "Trademark", 20⟩

/-- Two-row table whose rows tie on `filings`. -/
def tiedFilers : List TopFilerRow :=
  [tiedRowX, tiedRowY]

/-- One link of the flow graph: positional indices into the node list,
the numeric weight `float(row["applications"])`, and the display label. -/
structure SankeyLink where
  source : Nat
  target : Nat
  value : ℚ
  label : String
deriving DecidableEq, Repr

/-- The Sankey graph: node display labels and weighted links. -/
structure FlowGraph where
  nodes : List String
  links : List SankeyLink
deriving DecidableEq, Repr

/-- Embedding of the pair restriction feeding the Sankey build
(src/app.py line 204): rows whose (origin, dest) is (a, b) or (b, a). -/
def pairRows (df : List FlowRow) (a b : String) : List FlowRow :=
  df.filter (fun r =>
    (r.origin_country == a && r.dest_country == b) ||
    (r.origin_country == b && r.dest_country == a))

/-- First-seen insertion used to model the node set
`nodes = list({c1, c2} | set(df_sankey["ip_type"].unique()))`
(src/app.py line 209): a Python set holds each name once; its iteration
order is unspecified, so any duplicate-free enumeration of the union is a
faithful model, and we fix first-seen order. -/
def insertNode (ns : List String) (n : String) : List String :=
  if n ∈ ns then ns else ns ++ [n]

/-- Node list of the Sankey graph: the countries `a`, `b` and the distinct
`ip_type` values of the input rows, each once. -/
def sankeyNodes (a b : String) (rows : List FlowRow) : List String :=
  (rows.map (fun r => r.ip_type)).foldl insertNode (insertNode (insertNode [] a) b)

/-- Display label of one link:
`f'{row["origin_country"]}→{row["dest_country"]} ({row["ip_type"]})'`. -/
def linkLabel (r : FlowRow) : String :=
  r.origin_country ++ "→" ++ r.dest_country ++ " (" ++ r.ip_type ++ ")"

/-- Embedding of the Sankey construction (src/app.py lines 204-216).
When the pair-restricted frame is empty the source shows a no-data notice
and builds nothing: the graph is empty.  Otherwise one link per row:
`source` is the node index of the row's origin country, `target` the node
index of its destination country, `value` the row's applications. -/
def build_sankey (rows : List FlowRow) (a b : String) : FlowGraph :=
  if rows.isEmpty then { nodes := [], links := [] }
  else
    let nodes := sankeyNodes a b rows
    { nodes := nodes
      links := rows.map (fun r =>
        { source := nodes.indexOf r.origin_country
          target := nodes.indexOf r.dest_country
          value := (r.applications : ℚ)
          label := linkLabel r }) }

/-- Concrete flows table of the spec scenario:
2023 Canada→Japan Patent 100 and 2024 Canada→Japan Patent 150. -/
def canadaJapanFlows : List FlowRow :=
  [⟨2023, "Canada", "Japan", "Patent", 100⟩,
   ⟨2024, "Canada", "Japan", "Patent", 150⟩]

/-- Concrete one-row frame with an `ip_type` column, used to exercise the
empty-IP-selection edge case of `apply_filters`. -/
def ipTypeDF : DataFrame :=
  { cols := ["year", "ip_type", "applications"]
    rows := [[("year", Value.i 2020), ("ip_type", Value.s "Patent"),
              ("applications", Value.i 5)]] }

/-- Concrete top-filers table of the spec scenario: filers A, B, C with
filings 30, 10, 20 for the Canada→Japan pair. -/
def abcTopFilers : List TopFilerRow :=
  [⟨"A", "Canada", "Japan", "Patent", 30⟩,
   ⟨"B", "Canada", "Japan", "Patent", 10⟩,
   ⟨"C", "Canada", "Japan", "Patent", 20⟩]

/-- Concrete one-row pair-restricted flows input for the Sankey builder. -/
def oneSankeyRow : List FlowRow :=
  [⟨2023, "Canada", "Japan", "Patent", 100⟩]

theorem yearStage_cols (df : DataFrame) (a b : Option Int) :
    (yearStage df a b).cols = df.cols := by
  unfold yearStage
  split
  · split <;> rfl
  · rfl

theorem ipStage_cols (df : DataFrame) (i : Option (List String)) :
    (ipStage df i).cols = df.cols := by
  unfold ipStage
  split
  · split <;> rfl
  · rfl

theorem yearStage_rows_sublist (df : DataFrame) (a b : Option Int) :
    (yearStage df a b).rows.Sublist df.rows := by
  unfold yearStage
  split
  · split
    · exact List.filter_sublist _
    · exact List.Sublist.refl _
  · exact List.Sublist.refl _

theorem ipStage_rows_sublist (df : DataFrame) (i : Option (List String)) :
    (ipStage df i).rows.Sublist df.rows := by
  unfold ipStage
  split
  · split
    · exact List.filter_sublist _
    · exact List.Sublist.refl _
  · exact List.Sublist.refl _

theorem yearStage_eq_of_all {df : DataFrame} {a b : Option Int}
    (h : ∀ x y, a = some x → b = some y → "year" ∈ df.cols →
      ∀ r ∈ df.rows, yearOk x y r) :
    yearStage df a b = df := by
  unfold yearStage
  split
  · rename_i x y
    by_cases hc : "year" ∈ df.cols
    · simp only [if_pos hc]
      have hf : df.rows.filter (yearOk x y) = df.rows :=
        List.filter_eq_self.mpr (h x y rfl rfl hc)
      rw [hf]
    · simp only [if_neg hc]
  · rfl

theorem ipStage_eq_of_all {df : DataFrame} {i : Option (List String)}
    (h : ∀ ips, i = some ips → ips ≠ [] → "ip_type" ∈ df.cols →
      ∀ r ∈ df.rows, ipOk ips r) :
    ipStage df i = df := by
  unfold ipStage
  split
  · rename_i ips
    by_cases hc : ips ≠ [] ∧ "ip_type" ∈ df.cols
    · simp only [if_pos hc]
      have hf : df.rows.filter (ipOk ips) = df.rows :=
        List.filter_eq_self.mpr (h ips rfl hc.1 hc.2)
      rw [hf]
    · simp only [if_neg hc]
  · rfl

theorem yearStage_all (df : DataFrame) (x y : Int) (hc : "year" ∈ df.cols) :
    ∀ r ∈ (yearStage df (some x) (some y)).rows, yearOk x y r := by
  intro r hr
  unfold yearStage at hr
  simp only [if_pos hc] at hr
  exact (List.mem_filter.mp hr).2

theorem ipStage_all (df : DataFrame) (ips : List String)
    (hne : ips ≠ []) (hc : "ip_type" ∈ df.cols) :
    ∀ r ∈ (ipStage df (some ips)).rows, ipOk ips r := by
  intro r hr
  unfold ipStage at hr
  simp only [if_pos (And.intro hne hc)] at hr
  exact (List.mem_filter.mp hr).2

theorem count_filter_of_mem {p : Row → Bool} {l : List Row} {r : Row}
    (h : r ∈ l.filter p) : (l.filter p).count r = l.count r :=
  List.count_filter (List.mem_filter.mp h).2

theorem yearStage_count {df : DataFrame} {a b : Option Int} {r : Row}
    (hr : r ∈ (yearStage df a b).rows) :
    (yearStage df a b).rows.count r = df.rows.count r := by
  unfold yearStage at hr ⊢
  split at hr
  · rename_i x y
    by_cases hc : "year" ∈ df.cols
    · simp only [if_pos hc] at hr ⊢
      exact count_filter_of_mem hr
    · simp only [if_neg hc]
  · rfl

theorem ipStage_count {df : DataFrame} {i : Option (List String)} {r : Row}
    (hr : r ∈ (ipStage df i).rows) :
    (ipStage df i).rows.count r = df.rows.count r := by
  unfold ipStage at hr ⊢
  split at hr
  · rename_i ips
    by_cases hc : ips ≠ [] ∧ "ip_type" ∈ df.cols
    · simp only [if_pos hc] at hr ⊢
      exact count_filter_of_mem hr
    · simp only [if_neg hc]
  · rfl

theorem mem_insertNode {ns : List String} {n x : String} :
    x ∈ insertNode ns n ↔ x ∈ ns ∨ x = n := by
  unfold insertNode
  by_cases h : n ∈ ns
  · simp only [if_pos h]
    constructor
    · exact Or.inl
    · rintro (hx | rfl)
      · exact hx
      · exact h
  · simp [if_neg h]

theorem nodup_insertNode {ns : List String} (h : ns.Nodup) (n : String) :
    (insertNode ns n).Nodup := by
  unfold insertNode
  by_cases hm : n ∈ ns
  · simpa [if_pos hm] using h
  · simp [if_neg hm, List.nodup_append, h, hm]

theorem mem_foldl_insertNode :
    ∀ (l : List String) (init : List String) (x : String),
      x ∈ l.foldl insertNode init ↔ x ∈ init ∨ x ∈ l
  | [], init, x => by simp
  | n :: l, init, x => by
    simp only [List.foldl_cons]
    rw [mem_foldl_insertNode l (insertNode init n) x, mem_insertNode]
    simp only [List.mem_cons]
    constructor
    · rintro ((hx | rfl) | hx)
      · exact Or.inl hx
      · exact Or.inr (Or.inl rfl)
      · exact Or.inr (Or.inr hx)
    · rintro (hx | rfl | hx)
      · exact Or.inl (Or.inl hx)
      · exact Or.inl (Or.inr rfl)
      · exact Or.inr hx

theorem nodup_foldl_insertNode :
    ∀ (l : List String) (init : List String), init.Nodup →
      (l.foldl insertNode init).Nodup
  | [], _, h => h
  | n :: l, init, h => by
    simp only [List.foldl_cons]
    exact nodup_foldl_insertNode l (insertNode init n) (nodup_insertNode h n)

theorem mem_sankeyNodes {a b : String} {rows : List FlowRow} {x : String} :
    x ∈ sankeyNodes a b rows ↔
      x = a ∨ x = b ∨ x ∈ rows.map FlowRow.ip_type := by
  unfold sankeyNodes
  rw [mem_foldl_insertNode]
  rw [mem_insertNode, mem_insertNode]
  simp only [List.not_mem_nil, false_or]
  tauto

theorem nodup_sankeyNodes (a b : String) (rows : List FlowRow) :
    (sankeyNodes a b rows).Nodup := by
  unfold sankeyNodes
  apply nodup_foldl_insertNode
  exact nodup_insertNode (nodup_insertNode List.nodup_nil a) b

/-- Claim C1 is false on the code at a concrete input: `ipTypeDF` has an
`ip_type` column, yet `apply_filters` with the empty IP-type selection
keeps its row instead of returning zero rows, because the Python
truthiness test `if ip_types` skips the IP-type mask for an empty list. -/
theorem apply_filters_empty_ips_cex :
    "ip_type" ∈ ipTypeDF.cols ∧
      (apply_filters ipTypeDF (some []) (some 2019) (some 2024)).rows.length ≠ 0 := by
  decide

/-- Claim C1 (amended): filtering with an empty `ip_types` set does not
return zero rows; the IP-type stage is skipped entirely (the truthiness
test `if ip_types` fails on an empty list), so the result is the same as
filtering with no IP-type criterion at all. -/
theorem apply_filters_empty_ips (df : DataFrame) (ymin ymax : Option Int) :
    apply_filters df (some []) ymin ymax = apply_filters df none ymin ymax := by
  simp [apply_filters, ipStage]

/-- Claim C7: for every table and criteria, the filtered table's rows form
a sublist of the input's rows (no rows added, no fields altered, original
order kept) and the column set is unchanged; the input table itself is
untouched, `apply_filters` being a pure function on values. -/
theorem apply_filters_sublist (df : DataFrame) (i : Option (List String))
    (a b : Option Int) :
    (apply_filters df i a b).rows.Sublist df.rows ∧
      (apply_filters df i a b).cols = df.cols := by
  by_cases h0 : df.rows.isEmpty
  · unfold apply_filters
    rw [if_pos h0]
    exact ⟨List.Sublist.refl _, rfl⟩
  · unfold apply_filters
    rw [if_neg h0]
    refine ⟨(ipStage_rows_sublist _ _).trans (yearStage_rows_sublist _ _ _), ?_⟩
    rw [ipStage_cols, yearStage_cols]

/-- Claim C8: `apply_filters` is idempotent — filtering an already
filtered table with the same criteria changes nothing. -/
theorem apply_filters_idem (df : DataFrame) (i : Option (List String))
    (a b : Option Int) :
    apply_filters (apply_filters df i a b) i a b = apply_filters df i a b := by
  by_cases h0 : df.rows.isEmpty
  · unfold apply_filters
    rw [if_pos h0, if_pos h0]
  · have hAF : apply_filters df i a b = ipStage (yearStage df a b) i := by
      unfold apply_filters
      rw [if_neg h0]
    rw [hAF]
    by_cases h2 : (ipStage (yearStage df a b) i).rows.isEmpty
    · unfold apply_filters
      rw [if_pos h2]
    · unfold apply_filters
      rw [if_neg h2]
      have hy : yearStage (ipStage (yearStage df a b) i) a b
          = ipStage (yearStage df a b) i := by
        apply yearStage_eq_of_all
        intro x y hax hby hc r hr
        rw [ipStage_cols, yearStage_cols] at hc
        subst hax
        subst hby
        have hr2 : r ∈ (yearStage df (some x) (some y)).rows :=
          (ipStage_rows_sublist _ _).subset hr
        exact yearStage_all df x y hc r hr2
      rw [hy]
      apply ipStage_eq_of_all
      intro ips hi hne hc r hr
      subst hi
      rw [ipStage_cols, yearStage_cols] at hc
      have hc2 : "ip_type" ∈ (yearStage df a b).cols := by
        rw [yearStage_cols]
        exact hc
      exact ipStage_all (yearStage df a b) ips hne hc2 r hr

/-- Claim C10: the rows that survive filtering keep their relative input
order (the result is a sublist of the input) and no surviving row is
duplicated: it occurs in the result exactly as often as in the input. -/
theorem apply_filters_count (df : DataFrame) (i : Option (List String))
    (a b : Option Int) :
    (apply_filters df i a b).rows.Sublist df.rows ∧
      ∀ r ∈ (apply_filters df i a b).rows,
        (apply_filters df i a b).rows.count r = df.rows.count r := by
  by_cases h0 : df.rows.isEmpty
  · unfold apply_filters
    rw [if_pos h0]
    exact ⟨List.Sublist.refl _, fun r _ => rfl⟩
  · unfold apply_filters
    rw [if_neg h0]
    refine ⟨(ipStage_rows_sublist _ _).trans (yearStage_rows_sublist _ _ _), ?_⟩
    intro r hr
    have h1 : (ipStage (yearStage df a b) i).rows.count r
        = (yearStage df a b).rows.count r := ipStage_count hr
    have hr2 : r ∈ (yearStage df a b).rows := (ipStage_rows_sublist _ _).subset hr
    have h2 : (yearStage df a b).rows.count r = df.rows.count r :=
      yearStage_count hr2
    rw [h1, h2]

/-- Concrete instantiation of `apply_filters_count`: the surviving row of
`ipTypeDF` keeps its multiplicity after filtering. -/
theorem apply_filters_count_w :
    (apply_filters ipTypeDF (some ["Patent"]) (some 2019) (some 2024)).rows.count
        [("year", Value.i 2020), ("ip_type", Value.s "Patent"),
         ("applications", Value.i 5)]
      = ipTypeDF.rows.count
        [("year", Value.i 2020), ("ip_type", Value.s "Patent"),
         ("applications", Value.i 5)] :=
  (apply_filters_count ipTypeDF (some ["Patent"]) (some 2019) (some 2024)).2 _
    (by decide)

theorem any_year_iff (M : List FlowRow) (y : Int) :
    (M.any (fun r => r.year == y) = true) ↔ y ∈ M.map FlowRow.year := by
  simp only [List.any_eq_true, List.mem_map, beq_iff_eq]

/-- Claim C2: `yoy_change` returns `none` exactly when the per-year grouped
sums for the matching origin/destination pair lack `end_year`, lack
`end_year - 1`, or have a zero prior-year sum, or the table is empty; any
returned value is `100 * (curr - prev) / prev` over those grouped sums.
Absence of `end_year - 1` alone (third disjunct) already forces `none`. -/
theorem yoy_change_none_iff (df : List FlowRow) (o d : String) (y : Int) :
    (yoy_change df o d y = none ↔
      df = [] ∨ y ∉ (matchRows df o d).map FlowRow.year
        ∨ (y - 1) ∉ (matchRows df o d).map FlowRow.year
        ∨ yearSum (matchRows df o d) (y - 1) = 0)
    ∧ ∀ q : ℚ, yoy_change df o d y = some q →
        q = 100 * ((yearSum (matchRows df o d) y : ℚ)
              - (yearSum (matchRows df o d) (y - 1) : ℚ))
            / (yearSum (matchRows df o d) (y - 1) : ℚ) := by
  by_cases h0 : df.isEmpty
  · have hdf : df = [] := List.isEmpty_iff.mp h0
    subst hdf
    exact ⟨by simp [yoy_change], fun q hq => by simp [yoy_change] at hq⟩
  · have hne : ¬ df = [] := fun h => h0 (h ▸ rfl)
    by_cases hA : (matchRows df o d).any (fun r => r.year == y)
    · by_cases hB : (matchRows df o d).any (fun r => r.year == y - 1)
      · by_cases hP : yearSum (matchRows df o d) (y - 1) = 0
        · have hval : yoy_change df o d y = none := by
            simp only [yoy_change, h0, Bool.false_eq_true, if_false, hA, hB,
              Bool.not_true, Bool.or_self, if_pos hP]
          refine ⟨⟨fun _ => Or.inr (Or.inr (Or.inr hP)), fun _ => hval⟩, ?_⟩
          intro q hq
          rw [hval] at hq
          exact absurd hq (by simp)
        · have hval : yoy_change df o d y =
              some (100 * ((yearSum (matchRows df o d) y : ℚ)
                  - (yearSum (matchRows df o d) (y - 1) : ℚ))
                / (yearSum (matchRows df o d) (y - 1) : ℚ)) := by
            simp only [yoy_change, h0, Bool.false_eq_true, if_false, hA, hB,
              Bool.not_true, Bool.or_self, if_neg hP]
          constructor
          · constructor
            · intro hq
              rw [hval] at hq
              exact absurd hq (by simp)
            · rintro (h | h | h | h)
              · exact absurd h hne
              · exact absurd ((any_year_iff _ _).mp hA) h
              · exact absurd ((any_year_iff _ _).mp hB) h
              · exact absurd h hP
          · intro q hq
            rw [hval] at hq
            exact (Option.some_inj.mp hq).symm
      · have hval : yoy_change df o d y = none := by
          simp only [yoy_change, h0, Bool.false_eq_true, if_false]
          rw [if_pos]
          simp [hB]
        refine ⟨⟨fun _ => ?_, fun _ => hval⟩, ?_⟩
        · exact Or.inr (Or.inr (Or.inl (fun hm =>
            hB ((any_year_iff _ _).mpr hm))))
        · intro q hq
          rw [hval] at hq
          exact absurd hq (by simp)
    · have hval : yoy_change df o d y = none := by
        simp only [yoy_change, h0, Bool.false_eq_true, if_false]
        rw [if_pos]
        simp [hA]
      refine ⟨⟨fun _ => ?_, fun _ => hval⟩, ?_⟩
      · exact Or.inr (Or.inl (fun hm => hA ((any_year_iff _ _).mpr hm)))
      · intro q hq
        rw [hval] at hq
        exact absurd hq (by simp)

/-- Concrete instantiation of `yoy_change_none_iff`: on the two-row
Canada→Japan table the change at end year 2023 is absent, because 2022 is
missing from the grouped years even though 2023 is present. -/
theorem yoy_change_none_iff_w :
    yoy_change canadaJapanFlows "Canada" "Japan" 2023 = none :=
  ((yoy_change_none_iff canadaJapanFlows "Canada" "Japan" 2023).1).mpr
    (Or.inr (Or.inr (Or.inl (by decide))))

/-- Claim C3: on the concrete flows
[{2023, Canada, Japan, Patent, 100}, {2024, Canada, Japan, Patent, 150}]
the year-over-year change for Canada→Japan at end year 2024 is 50. -/
theorem yoy_change_scenario :
    yoy_change canadaJapanFlows "Canada" "Japan" 2024 = some 50 := by
  simp [yoy_change, matchRows, yearSum, canadaJapanFlows]
  norm_num

/-- Claim C9: `sum_apps` returns the sum of `applications` over the rows
whose origin and destination match, and 0 on an empty table or when no
row matches. -/
theorem sum_apps_spec (df : List FlowRow) (o d : String) :
    sum_apps df o d =
      ((df.filter (fun r =>
          decide (r.origin_country = o ∧ r.dest_country = d))).map
        (fun r => r.applications)).sum
    ∧ (df = [] → sum_apps df o d = 0)
    ∧ ((∀ r ∈ df, ¬(r.origin_country = o ∧ r.dest_country = d)) →
        sum_apps df o d = 0) := by
  have hpred : df.filter (fun r =>
      decide (r.origin_country = o ∧ r.dest_country = d)) = matchRows df o d := by
    unfold matchRows
    apply List.filter_congr
    intro r _
    rw [Bool.eq_iff_iff]
    simp
  have h1 : sum_apps df o d =
      ((matchRows df o d).map (fun r => r.applications)).sum := by
    unfold sum_apps
    by_cases h : df.isEmpty
    · have hdf : df = [] := List.isEmpty_iff.mp h
      subst hdf
      rfl
    · rw [if_neg h]
  refine ⟨by rw [hpred, h1], fun hdf => by subst hdf; rfl, ?_⟩
  intro hnone
  have hm : matchRows df o d = [] := by
    unfold matchRows
    rw [List.filter_eq_nil_iff]
    intro r hr
    simp only [Bool.and_eq_true, beq_iff_eq, not_and]
    intro ho hd
    exact hnone r hr ⟨ho, hd⟩
  rw [h1, hm]
  rfl

/-- Concrete instantiation of `sum_apps_spec`: 0 on the empty table and 0
when no row matches the requested (reversed) pair. -/
theorem sum_apps_spec_w :
    sum_apps [] "Canada" "Japan" = 0 ∧
      sum_apps canadaJapanFlows "Japan" "Canada" = 0 :=
  ⟨(sum_apps_spec [] "Canada" "Japan").2.1 rfl,
   (sum_apps_spec canadaJapanFlows "Japan" "Canada").2.2 (by decide)⟩

/-- Claim C5: for non-negative inventor counts the gender share is
`female / (female + male)`, lies in [0, 1], and is 0 (not NaN or
infinity) when both counts are 0. -/
theorem female_share_spec (f m : Nat) :
    0 ≤ female_share f m ∧ female_share f m ≤ 1
    ∧ (f = 0 → m = 0 → female_share f m = 0)
    ∧ (f + m ≠ 0 →
        female_share f m = (f : ℚ) / ((f : ℚ) + (m : ℚ))) := by
  unfold female_share
  by_cases h : f + m = 0
  · simp [h]
  · have hpos : (0 : ℚ) < (f : ℚ) + (m : ℚ) := by
      have : (0 : ℚ) < ((f + m : Nat) : ℚ) := by
        exact_mod_cast Nat.pos_of_ne_zero h
      push_cast at this
      linarith
    rw [if_neg h]
    refine ⟨?_, ?_, ?_, fun _ => rfl⟩
    · apply div_nonneg
      · exact_mod_cast Nat.zero_le f
      · linarith
    · rw [div_le_one hpos]
      have : (0 : ℚ) ≤ (m : ℚ) := by exact_mod_cast Nat.zero_le m
      linarith
    · intro hf hm
      exact absurd (by rw [hf, hm]) h

/-- Concrete instantiation of `female_share_spec`: the scenario row
{female 30, male 70} gives 30/100 = 0.3, and the all-zero row gives 0. -/
theorem female_share_spec_w :
    female_share 30 70 = (30 : ℚ) / ((30 : ℚ) + (70 : ℚ)) ∧
      female_share 0 0 = 0 :=
  ⟨(female_share_spec 30 70).2.2.2 (by norm_num),
   (female_share_spec 0 0).2.2.1 rfl rfl⟩

/-- Claim C4 (code-bug evidence): the sort the code performs does not
deliver the claim's tie-breaking clause.  `sort_values("filings",
ascending=False)` with the default `kind='quicksort'` guarantees only a
permutation of the matching rows in descending `filings` order; the
algorithm is not stable, so the relative order of equal-`filings` rows is
unspecified.  On the tied two-row failing input, both row orders are
valid runs of the code and they differ, so the original-row-order ties
the claim requires are not a behavior of the code.  The claim's tie-free
scenario, by contrast, is forced: every valid descending run on filings
[30, 10, 20] begins with [A(30), C(20)]. -/
theorem df_topn_tie_unspecified :
    (sortValuesDescRun tiedFilers [tiedRowY, tiedRowX]
      ∧ sortValuesDescRun tiedFilers [tiedRowX, tiedRowY]
      ∧ [tiedRowY, tiedRowX] ≠ [tiedRowX, tiedRowY])
    ∧ ∀ out : List TopFilerRow,
        sortValuesDescRun (df_top abcTopFilers "Canada" "Japan") out →
          out.take 2 =
            [⟨"A", "Canada", "Japan", "Patent", 30⟩,
             ⟨"C", "Canada", "Japan", "Patent", 20⟩] := by
  constructor
  · refine ⟨⟨?_, by decide⟩, ⟨?_, by decide⟩, by decide⟩
    · exact List.Perm.swap tiedRowX tiedRowY []
    · exact List.Perm.refl tiedFilers
  · intro out hrun
    have hd : df_top abcTopFilers "Canada" "Japan" = abcTopFilers := by decide
    have hp : out.Perm abcTopFilers := by
      have h1 := hrun.1
      rwa [hd] at h1
    have hmem : out ∈ abcTopFilers.permutations' :=
      List.mem_permutations'.mpr hp
    have hall : ∀ l ∈ abcTopFilers.permutations',
        l.Pairwise filingsGe → l.take 2 =
          [⟨"A", "Canada", "Japan", "Patent", 30⟩,
           ⟨"C", "Canada", "Japan", "Patent", 20⟩] := by decide
    exact hall out hmem hrun.2

/-- Concrete instantiation of `df_topn_tie_unspecified`: the descending
run [A(30), C(20), B(10)] of the scenario table starts with
[A(30), C(20)]. -/
theorem df_topn_tie_unspecified_w :
    ([⟨"A", "Canada", "Japan", "Patent", 30⟩,
      ⟨"C", "Canada", "Japan", "Patent", 20⟩,
      ⟨"B", "Canada", "Japan", "Patent", 10⟩] : List TopFilerRow).take 2 =
      [⟨"A", "Canada", "Japan", "Patent", 30⟩,
       ⟨"C", "Canada", "Japan", "Patent", 20⟩] :=
  df_topn_tie_unspecified.2 _ ⟨by decide, by decide⟩

/-- Claim C6: on rows restricted to the pair (a, b) in either direction,
`build_sankey` yields a graph whose duplicate-free node list enumerates
exactly {a, b} together with the distinct `ip_type` values of the rows,
and one link per input row whose source index resolves to the row's
origin country, target index to its destination country, value to its
applications, and label to the display string; on empty input the graph
has zero nodes and zero links. -/
theorem build_sankey_spec (rows : List FlowRow) (a b : String)
    (h : ∀ r ∈ rows, (r.origin_country = a ∧ r.dest_country = b) ∨
      (r.origin_country = b ∧ r.dest_country = a)) :
    (rows = [] → (build_sankey rows a b).nodes = [] ∧
      (build_sankey rows a b).links = [])
    ∧ (rows ≠ [] →
        (build_sankey rows a b).nodes.Nodup
        ∧ (∀ x, x ∈ (build_sankey rows a b).nodes ↔
            x = a ∨ x = b ∨ x ∈ rows.map FlowRow.ip_type)
        ∧ (build_sankey rows a b).links.length = rows.length
        ∧ ∀ (i : Nat) (hi : i < rows.length)
            (hl : i < (build_sankey rows a b).links.length),
            ((build_sankey rows a b).links.get ⟨i, hl⟩).value
                = ((rows.get ⟨i, hi⟩).applications : ℚ)
            ∧ (build_sankey rows a b).nodes[((build_sankey rows a b).links.get ⟨i, hl⟩).source]?
                = some (rows.get ⟨i, hi⟩).origin_country
            ∧ (build_sankey rows a b).nodes[((build_sankey rows a b).links.get ⟨i, hl⟩).target]?
                = some (rows.get ⟨i, hi⟩).dest_country
            ∧ ((build_sankey rows a b).links.get ⟨i, hl⟩).label
                = linkLabel (rows.get ⟨i, hi⟩)) := by
  constructor
  · intro he
    subst he
    exact ⟨rfl, rfl⟩
  · intro hne
    have hG : build_sankey rows a b =
        { nodes := sankeyNodes a b rows
          links := rows.map (fun r =>
            { source := (sankeyNodes a b rows).indexOf r.origin_country
              target := (sankeyNodes a b rows).indexOf r.dest_country
              value := (r.applications : ℚ)
              label := linkLabel r }) } := by
      unfold build_sankey
      rw [if_neg (by simp [List.isEmpty_iff, hne])]
    rw [hG]
    refine ⟨nodup_sankeyNodes a b rows, fun x => mem_sankeyNodes, by simp, ?_⟩
    intro i hi hl
    have hget : ∀ (hl' : i < (rows.map (fun r =>
        ({ source := (sankeyNodes a b rows).indexOf r.origin_country
           target := (sankeyNodes a b rows).indexOf r.dest_country
           value := (r.applications : ℚ)
           label := linkLabel r } : SankeyLink))).length),
        (rows.map (fun r =>
        ({ source := (sankeyNodes a b rows).indexOf r.origin_country
           target := (sankeyNodes a b rows).indexOf r.dest_country
           value := (r.applications : ℚ)
           label := linkLabel r } : SankeyLink))).get ⟨i, hl'⟩ =
          { source := (sankeyNodes a b rows).indexOf (rows.get ⟨i, hi⟩).origin_country
            target := (sankeyNodes a b rows).indexOf (rows.get ⟨i, hi⟩).dest_country
            value := ((rows.get ⟨i, hi⟩).applications : ℚ)
            label := linkLabel (rows.get ⟨i, hi⟩) } := by
      intro hl'
      simp [List.get_eq_getElem, List.getElem_map]
    rw [hget hl]
    have hmem : rows.get ⟨i, hi⟩ ∈ rows := List.get_mem rows i hi
    have horig : (rows.get ⟨i, hi⟩).origin_country ∈ sankeyNodes a b rows := by
      rcases h _ hmem with ⟨ho, _⟩ | ⟨ho, _⟩
      · exact mem_sankeyNodes.mpr (Or.inl ho)
      · exact mem_sankeyNodes.mpr (Or.inr (Or.inl ho))
    have hdest : (rows.get ⟨i, hi⟩).dest_country ∈ sankeyNodes a b rows := by
      rcases h _ hmem with ⟨_, hd⟩ | ⟨_, hd⟩
      · exact mem_sankeyNodes.mpr (Or.inr (Or.inl hd))
      · exact mem_sankeyNodes.mpr (Or.inl hd)
    exact ⟨rfl, List.getElem?_indexOf horig, List.getElem?_indexOf hdest, rfl⟩

/-- Concrete instantiation of `build_sankey_spec`: one Canada→Japan patent
row yields exactly one link. -/
theorem build_sankey_spec_w :
    (build_sankey oneSankeyRow "Canada" "Japan").links.length =
      oneSankeyRow.length :=
  ((build_sankey_spec oneSankeyRow "Canada" "Japan" (by decide)).2
    (by decide)).2.2.1
